import Mathlib

/-
Verification development for the charger-status monitor
(`charger_monitor_api.py`).  The program polls a status API for charging
connectors, diffs the freshly polled statuses against an in-memory
last-known-status map, writes CSV rows for selected transitions, and sends
batched Telegram notifications.

The definitions below are a shallow embedding of the Python source:

* `STATUS_MAP`, `get_charger_status` model the poll/parse step
  (lines 83-116): a failed request or an empty `data` field yields an
  empty mapping; connectors missing `detailedStatus` are skipped;
  `str(connector.get('deviceId'))` renders a missing id as `"None"`.
* `escape_markdown_v2` (lines 73-79) folds `str.replace(c, '\\' + c)`
  over the reserved-character list (which deliberately omits `_` and `*`).
* `log_status_change` (lines 121-138) builds the CSV row; the physical
  append may fail, which the Python code catches and ignores, so the
  tick model takes an `appendOk` oracle deciding which appends reach disk.
* `check_and_report_status` (lines 153-255) is the tick: early return on
  an empty poll, per-connector change detection (line 174) and alert
  decision (lines 178-189), CSV logging and alert collection only inside
  the alert branch (lines 191-210), wholesale replacement of
  `last_known_status` by the fresh poll (line 213), batched sending with
  batch size 10 that stops at the first delivery failure (lines 231-250,
  modelled by the `deliverOk` oracle), and clearing of `is_first_run`
  (line 255).

The startup loader `initialize` (lines 260-287) is not embedded: its
behaviour at same-id equal-timestamp rows depends on the tie order of
`DataFrame.sort_values`'s default quicksort inside pandas/numpy, which
is documented as unstable and is not code of this repository, so no
faithful executable model of it exists here.

`pcb` is a specification-side observer used to state properties: it
checks that every occurrence of a character in a string is immediately
preceded by a backslash.
-/

namespace ChargerMonitor

/-- Telegram 訊息分批數量 (line 16). -/
def BATCH_SIZE : Nat := 10

/-- The raw-to-canonical status table (lines 67-70). -/
def STATUS_MAP : List (String × String) :=
  [("Available", "上線"), ("Unavailable", "離線")]

/-- The reserved characters escaped by `escape_markdown_v2` (line 76).
The Python list is `['[', ']', '(', ')', '~', '\x60', '>', '#', '+',
'-', '=', '|', '\x7b', '\x7d', '.', '!']`; note that `_` and `*` are
deliberately absent. -/
def reserved_chars : List Char := "[]()~`>#+-=|\x7b\x7d.!".toList

/-- One pass of `text.replace(char, '\\' + char)` for a single character:
every occurrence of `c` is replaced by a backslash followed by `c`. -/
def replaceChar : List Char → Char → List Char
  | [], _ => []
  | x :: rest, c => (if x = c then ['\\', x] else [x]) ++ replaceChar rest c

/-- `escape_markdown_v2` (lines 73-79): sequentially replaces each
reserved character by a backslash followed by that character. -/
def escape_markdown_v2 (text : String) : String :=
  String.mk (reserved_chars.foldl replaceChar text.toList)

/-- Observer: `pcbAux c prev s` is true when every occurrence of `c` in
`s` is immediately preceded by a backslash, where `prev` is the character
standing just before `s`. -/
def pcbAux (c : Char) : Char → List Char → Bool
  | _, [] => true
  | prev, x :: rest => (decide (x ≠ c) || decide (prev = '\\')) && pcbAux c x rest

/-- Observer: every occurrence of `c` in `s` is immediately preceded by a
backslash (the virtual character before the string is `'A'`, which is not
a backslash, so a leading occurrence of `c` counts as unescaped). -/
def pcb (c : Char) (s : List Char) : Bool := pcbAux c 'A' s

/-- One CSV row as written by `log_status_change` (lines 127-132):
the DataFrame has exactly the keys Timestamp, ChargerID, OldStatus,
NewStatus. -/
structure TransitionRecord where
  timestamp : String
  chargerId : String
  oldStatus : String
  newStatus : String
deriving DecidableEq, Repr

/-- `log_status_change` (lines 121-134): builds the row that is appended
to the CSV; a missing prior status is written as the sentinel
`'INITIAL'` (line 125). -/
def log_status_change (now charger_id : String) (old_status : Option String)
    (new_status : String) : TransitionRecord :=
  { timestamp := now
    chargerId := charger_id
    oldStatus := old_status.getD "INITIAL"
    newStatus := new_status }

/-- The CSV header written when the file is created (line 281). -/
def csv_header : List String := ["Timestamp", "ChargerID", "OldStatus", "NewStatus"]

/-- The cell values of one appended row, in header order. -/
def record_fields (r : TransitionRecord) : List String :=
  [r.timestamp, r.chargerId, r.oldStatus, r.newStatus]

/-- Python dict lookup (`d.get(k)`): first matching key, `none` if absent. -/
def dlookup : List (String × String) → String → Option String
  | [], _ => none
  | (k, v) :: rest, key => if k = key then some v else dlookup rest key

/-- Python dict assignment (`d[k] = v`): update in place if the key
exists, otherwise append at the end (insertion order preserved). -/
def dinsert : List (String × String) → String → String → List (String × String)
  | [], k, v => [(k, v)]
  | (k2, v2) :: rest, k, v =>
      if k2 = k then (k2, v) :: rest else (k2, v2) :: dinsert rest k v

/-- One entry of a charge point's `connectors` array (§6 of the JSON
contract): `deviceId` and `detailedStatus` may each be absent. -/
structure Connector where
  deviceId : Option String
  detailedStatus : Option String
deriving DecidableEq, Repr

/-- One entry of the response's `data` array. -/
structure ChargePoint where
  connectors : List Connector
deriving DecidableEq, Repr

/-- `get_charger_status` (lines 83-116).  The argument is `none` when the
request or the JSON parse fails (the Python code catches the exception and
returns the empty dict), and `some cps` for a successful response with
`data` field `cps`.  `str(connector.get('deviceId'))` turns a missing id
into the string `"None"`, which is truthy; a missing or empty
`detailedStatus` makes the connector be skipped. -/
def get_charger_status (api : Option (List ChargePoint)) : List (String × String) :=
  match api with
  | none => []
  | some charger_points =>
      charger_points.foldl (fun acc cp =>
        cp.connectors.foldl (fun acc2 c =>
          let connector_id := match c.deviceId with
            | some s => s
            | none => "None"
          match c.detailedStatus with
          | some detailed_status =>
              if connector_id ≠ "" ∧ detailed_status ≠ "" then
                dinsert acc2 connector_id ((STATUS_MAP.lookup detailed_status).getD detailed_status)
              else acc2
          | none => acc2) acc) []

/-- The process-wide mutable state: `last_known_status` (line 64) and
`is_first_run` (line 65). -/
structure RunState where
  last_known_status : List (String × String)
  is_first_run : Bool
deriving DecidableEq, Repr

/-- The single-transition Telegram message (lines 204-209); `charger_id`
is interpolated raw while the alert type and both statuses go through
`escape_markdown_v2`. -/
def single_alert_message (alert_type charger_id old_status_display new_status : String) : String :=
  escape_markdown_v2 alert_type ++ " 🔌 充電槍 ID: `" ++ charger_id ++ "`\n  \\- 舊狀態: `" ++
    escape_markdown_v2 old_status_display ++ "`\n  \\- 新狀態: `" ++
    escape_markdown_v2 new_status ++ "`\n\\-\\-\\-\\-\\-\\-\\-\\-\\-\\-\\-\\-\\n"

/-- The `is_alert` / `alert_type` decision chain (lines 178-189). -/
def alert_decision (st : RunState) (old_status : Option String) (new_status : String) :
    Bool × String :=
  if st.is_first_run then (true, "⭐️ 初始狀態 (" ++ new_status ++ ")")
  else if new_status = "離線" then (true, "🚨 離線警報")
  else if old_status = some "離線" ∧ new_status = "上線" then (true, "✅ 狀態恢復")
  else (false, "")

/-- Line 174: `is_change_detected = (old_status != new_status) or
is_first_run and (old_status is None)` (Python `or` binds looser than
`and`). -/
abbrev is_change_detected (st : RunState) (id new_status : String) : Prop :=
  dlookup st.last_known_status id ≠ some new_status ∨
    (st.is_first_run = true ∧ dlookup st.last_known_status id = none)

/-- The alert condition of lines 178-189 as a predicate: first run, or
the new status is the offline label, or an offline-to-online recovery. -/
abbrev is_alert_transition (st : RunState) (id new_status : String) : Prop :=
  st.is_first_run = true ∨ new_status = "離線" ∨
    (dlookup st.last_known_status id = some "離線" ∧ new_status = "上線")

/-- The body of the per-connector loop (lines 171-210): when a change is
detected and the alert chain fires, one CSV row is logged and one alert
message is queued; otherwise nothing happens for this connector. -/
def process_connector (st : RunState) (now : String) (p : String × String) :
    Option (TransitionRecord × String) :=
  let old_status := dlookup st.last_known_status p.1
  if is_change_detected st p.1 p.2 then
    let d := alert_decision st old_status p.2
    if d.1 = true then
      some (log_status_change now p.1 old_status p.2,
        single_alert_message d.2 p.1 (old_status.getD "N/A") p.2)
    else none
  else none

/-- Fuel-driven helper for `chunks`; the fuel is the list length, which
dominates the number of batches. -/
def chunksFuel : Nat → List String → List (List String)
  | 0, _ => []
  | _, [] => []
  | n + 1, x :: xs => (x :: xs).take BATCH_SIZE :: chunksFuel n ((x :: xs).drop BATCH_SIZE)

/-- The slices `alerts_to_send[i:i + BATCH_SIZE]` taken by the loop
`for i in range(0, len(alerts_to_send), BATCH_SIZE)` (lines 231-232). -/
def chunks (l : List String) : List (List String) := chunksFuel l.length l

/-- The batches actually handed to Telegram: the loop attempts each batch
in order and `break`s after the first failed send (line 250), so the
attempted batches are the prefix up to and including the first failure. -/
def sendUpTo (deliverOk : Nat → Bool) : Nat → List (List String) → List (List String)
  | _, [] => []
  | i, b :: rest => b :: (if deliverOk i then sendUpTo deliverOk (i + 1) rest else [])

/-- The message of one batch (lines 235-243): title, escaped batch
counter, then the concatenated per-transition messages. -/
def mk_batch_message (title : String) (i total : Nat) (batch : List String) : String :=
  title ++ " \\(批次 " ++ toString (i + 1) ++ "/" ++ toString total ++ "\\)\n" ++
    String.join batch

/-- Everything one tick produces: the new global state, the rows passed
to `log_status_change` (`logCalls`), the rows whose physical append
succeeded (`written`), the queued alert messages, the batches attempted,
and the full Telegram messages sent. -/
structure TickResult where
  state : RunState
  logCalls : List TransitionRecord
  written : List TransitionRecord
  alerts_to_send : List String
  sentBatches : List (List String)
  notifierCalls : List String
deriving DecidableEq, Repr

/-- `check_and_report_status` (lines 153-255).  `current_statuses` is the
result of `get_charger_status`; `now` and `time_part` are the formatted
clock strings; `appendOk` tells which CSV appends physically succeed
(the Python code catches and ignores append failures); `deliverOk` tells
which Telegram batch sends succeed. -/
def check_and_report_status (st : RunState) (current_statuses : List (String × String))
    (now time_part : String) (appendOk : TransitionRecord → Bool)
    (deliverOk : Nat → Bool) : TickResult :=
  if current_statuses = [] then
    { state := st, logCalls := [], written := [], alerts_to_send := [],
      sentBatches := [], notifierCalls := [] }
  else
    let results := current_statuses.filterMap (process_connector st now)
    let logCalls := results.map Prod.fst
    let written := logCalls.filter appendOk
    let alerts_to_send := results.map Prod.snd
    let newState : RunState := { last_known_status := current_statuses, is_first_run := false }
    let telegram_title :=
      if st.is_first_run then "📢 **系統啟動報告** \\(" ++ time_part ++ "\\)"
      else "🚨 **狀態異動報告** \\(" ++ time_part ++ "\\)"
    let total_batches := (alerts_to_send.length + BATCH_SIZE - 1) / BATCH_SIZE
    let sent := if alerts_to_send = [] then [] else sendUpTo deliverOk 0 (chunks alerts_to_send)
    { state := newState
      logCalls := logCalls
      written := written
      alerts_to_send := alerts_to_send
      sentBatches := sent
      notifierCalls := sent.enum.map (fun q => mk_batch_message telegram_title q.1 total_batches q.2) }

/-- `n` consecutive ticks on which the Status Source fails (the request
raises, `get_charger_status` returns the empty dict).  Returns the final
state and the concatenation of all Telegram messages sent. -/
def iterate_failed (now time_part : String) (appendOk : TransitionRecord → Bool)
    (deliverOk : Nat → Bool) : Nat → RunState → RunState × List String
  | 0, st => (st, [])
  | n + 1, st =>
      let r := check_and_report_status st (get_charger_status none) now time_part appendOk deliverOk
      let rest := iterate_failed now time_part appendOk deliverOk n r.state
      (rest.1, r.notifierCalls ++ rest.2)

/-! ### Lemmas about the escaping function -/

lemma pcbAux_replaceChar_self (c : Char) (hc : ('\\' : Char) ≠ c) :
    ∀ (s : List Char) (prev : Char), pcbAux c prev (replaceChar s c) = true := by
  intro s
  induction s with
  | nil => intro prev; rfl
  | cons x rest ih =>
      intro prev
      by_cases hx : x = c
      · subst hx
        simp only [replaceChar, if_pos rfl, List.cons_append, List.nil_append, pcbAux]
        simp [hc, ih]
      · simp only [replaceChar, if_neg hx, List.cons_append, List.nil_append, pcbAux]
        simp [hx, ih]

lemma pcbAux_replaceChar_other (d c : Char) (hd : ('\\' : Char) ≠ d) (hdc : d ≠ c) :
    ∀ (s : List Char) (prev : Char),
      pcbAux d prev s = true → pcbAux d prev (replaceChar s c) = true := by
  intro s
  induction s with
  | nil => intro prev h; exact h
  | cons x rest ih =>
      intro prev h
      simp only [pcbAux, Bool.and_eq_true] at h
      by_cases hx : x = c
      · subst hx
        simp only [replaceChar, if_pos rfl, List.cons_append, List.nil_append, pcbAux]
        simp only [Bool.and_eq_true]
        refine ⟨by simp [hd], by simp [Ne.symm hdc], ih x h.2⟩
      · simp only [replaceChar, if_neg hx, List.cons_append, List.nil_append, pcbAux]
        simp only [Bool.and_eq_true]
        exact ⟨h.1, ih x h.2⟩

lemma pcbAux_foldl (c : Char) (hc : ('\\' : Char) ≠ c) :
    ∀ (cs : List Char) (s : List Char) (prev : Char),
      (c ∈ cs ∨ pcbAux c prev s = true) →
      pcbAux c prev (cs.foldl replaceChar s) = true := by
  intro cs
  induction cs with
  | nil =>
      intro s prev h
      rcases h with h | h
      · exact absurd h (List.not_mem_nil c)
      · exact h
  | cons c2 cs2 ih =>
      intro s prev h
      show pcbAux c prev (cs2.foldl replaceChar (replaceChar s c2)) = true
      apply ih
      by_cases hcc : c = c2
      · subst hcc
        exact Or.inr (pcbAux_replaceChar_self c hc s prev)
      · rcases h with hmem | hp
        · rcases List.mem_cons.mp hmem with h2 | h2
          · exact absurd h2 hcc
          · exact Or.inl h2
        · exact Or.inr (pcbAux_replaceChar_other c c2 hc hcc s prev hp)

/-! ### Basic tick lemmas -/

/-- An empty poll takes the early return of lines 164-166: nothing
happens and the state (including `is_first_run`) is untouched. -/
lemma check_empty (st : RunState) (now time_part : String)
    (appendOk : TransitionRecord → Bool) (deliverOk : Nat → Bool) :
    check_and_report_status st [] now time_part appendOk deliverOk =
      { state := st, logCalls := [], written := [], alerts_to_send := [],
        sentBatches := [], notifierCalls := [] } := rfl

/-! ### Claim theorems: C9, C8, C10, C5 -/

/-- C9 (counterexample): the claim says every occurrence of each of the
characters `_ * [ ] ( ) ~ \x60 > # + - = | \x7b \x7d . !` in every
interpolated dynamic value is backslash-escaped before delivery.  Two
failures: `escape_markdown_v2` leaves `_` and `*` untouched (input
`"a_b*c"` comes back unchanged with both characters bare), and the
charger id is interpolated into the payload raw (line 205), so the `.`
inside the dynamic id value `"ID.7"` reaches the delivered message with
no backslash before it. -/
theorem c9_unescaped_dynamic_values :
    escape_markdown_v2 "a_b*c" = "a_b*c" ∧
      pcb '_' (escape_markdown_v2 "a_b*c").toList = false ∧
      pcb '*' (escape_markdown_v2 "a_b*c").toList = false ∧
      pcb '.' (single_alert_message "🚨 離線警報" "ID.7" "上線" "離線").toList = false := by
  decide

/-- C9 (amended): of the interpolated dynamic values, the alert type and
both status displays are routed through `escape_markdown_v2`, whose
output has every occurrence of each character of `reserved_chars` (the
claim's list minus `_` and `*`, which the code deliberately leaves
unescaped to keep bold and italics working) immediately preceded by a
backslash, for every input; the charger id is NOT routed through the
escaper — it appears verbatim as a contiguous raw substring of the
delivered payload. -/
theorem c9_escaper_scope_and_raw_id :
    (∀ c : Char, c ∈ reserved_chars → ∀ s : String,
        pcb c (escape_markdown_v2 s).toList = true) ∧
      (∀ alert_type charger_id old_status_display new_status : String,
        List.IsInfix charger_id.toList
          (single_alert_message alert_type charger_id old_status_display
            new_status).toList) := by
  constructor
  · intro c hmem s
    have hbs : ('\\' : Char) ≠ c := by
      intro h
      rw [← h] at hmem
      exact absurd hmem (by decide)
    have h1 : (escape_markdown_v2 s).toList = reserved_chars.foldl replaceChar s.toList := by
      simp [escape_markdown_v2]
    unfold pcb
    rw [h1]
    exact pcbAux_foldl c hbs reserved_chars s.toList 'A' (Or.inl hmem)
  · intro alert_type charger_id old_status_display new_status
    refine ⟨(escape_markdown_v2 alert_type ++ " 🔌 充電槍 ID: `").toList,
      ("`\n  \\- 舊狀態: `" ++ escape_markdown_v2 old_status_display ++ "`\n  \\- 新狀態: `" ++
        escape_markdown_v2 new_status ++ "`\n\\-\\-\\-\\-\\-\\-\\-\\-\\-\\-\\-\\-\\n").toList, ?_⟩
    simp [single_alert_message]

/-- Witness for C9: the escaper part run at `c = '.'` on `"v1.2"`, and
the raw-id part at a concrete payload. -/
theorem c9_escaper_scope_and_raw_id_witness :
    ('.' ∈ reserved_chars) ∧
      pcb '.' (escape_markdown_v2 "v1.2").toList = true ∧
      List.IsInfix ("ID.7" : String).toList
        (single_alert_message "🚨 離線警報" "ID.7" "上線" "離線").toList :=
  ⟨by decide, c9_escaper_scope_and_raw_id.1 '.' (by decide) "v1.2",
    c9_escaper_scope_and_raw_id.2 "🚨 離線警報" "ID.7" "上線" "離線"⟩

/-- C8 (counterexample): the claim says every appended row conforms to
the five-column header `Timestamp, ChargerID, OldStatus, NewStatus,
Duration` and carries a Duration value, but the program's header (line
281) has only four columns, `Duration` is not among them, and the row
built by `log_status_change` has exactly four cells. -/
theorem c8_no_duration_field :
    csv_header ≠ ["Timestamp", "ChargerID", "OldStatus", "NewStatus", "Duration"] ∧
      "Duration" ∉ csv_header ∧
      (record_fields (log_status_change "2025-01-01 00:00:00" "A" none "上線")).length = 4 := by
  decide

/-- C8 (amended): every appended row conforms to the four-column header
`Timestamp, ChargerID, OldStatus, NewStatus`; there is no Duration
column.  The OldStatus cell carries the sentinel `INITIAL` when no prior
state existed, and the cells are exactly timestamp, charger id, old
status, new status in header order. -/
theorem c8_row_fields_match_header (now id : String) (old_status : Option String)
    (new_status : String) :
    record_fields (log_status_change now id old_status new_status) =
        [now, id, old_status.getD "INITIAL", new_status] ∧
      (record_fields (log_status_change now id old_status new_status)).length =
        csv_header.length ∧
      csv_header = ["Timestamp", "ChargerID", "OldStatus", "NewStatus"] :=
  ⟨rfl, rfl, rfl⟩

/-- C10 (confirmed): a successful poll with an empty `data` field yields
the empty status dict, so the tick takes the same early return as a
failed poll: the state (including `is_first_run`) is untouched and no log
row, alert, or notifier call is produced.  The same holds when `data`
contains only charge points without connectors. -/
theorem c10_empty_poll_like_failure (st : RunState) (now time_part : String)
    (appendOk : TransitionRecord → Bool) (deliverOk : Nat → Bool) :
    check_and_report_status st (get_charger_status (some [])) now time_part appendOk deliverOk =
        check_and_report_status st (get_charger_status none) now time_part appendOk deliverOk ∧
      check_and_report_status st (get_charger_status (some [])) now time_part appendOk deliverOk =
        { state := st, logCalls := [], written := [], alerts_to_send := [],
          sentBatches := [], notifierCalls := [] } ∧
      check_and_report_status st (get_charger_status (some [⟨[]⟩])) now time_part appendOk
          deliverOk =
        check_and_report_status st (get_charger_status none) now time_part appendOk deliverOk ∧
      (check_and_report_status st (get_charger_status (some [])) now time_part appendOk
          deliverOk).state.is_first_run = st.is_first_run :=
  ⟨rfl, rfl, rfl, rfl⟩

/-- C5 (counterexample): the claim says the third consecutive Status
Source failure emits exactly one failure alert; in the program three
consecutive failed ticks leave the state untouched and send zero
notifications (there is no failure counter at all). -/
theorem c5_three_failures_no_alert :
    iterate_failed "T" "tp" (fun _ => true) (fun _ => true) 3 ⟨[("A", "上線")], false⟩ =
      (⟨[("A", "上線")], false⟩, []) := by
  decide

/-- C5 (amended): the program keeps no consecutive-failure count and
never emits a failure alert: any number of consecutive Status Source
failures leaves the state unchanged and sends no notification at all. -/
theorem c5_failures_never_alert (now time_part : String) (appendOk : TransitionRecord → Bool)
    (deliverOk : Nat → Bool) (n : Nat) (st : RunState) :
    iterate_failed now time_part appendOk deliverOk n st = (st, []) := by
  induction n generalizing st with
  | zero => rfl
  | succ m ih =>
      simp only [iterate_failed]
      rw [show get_charger_status none = [] from rfl, check_empty]
      simp [ih]

/-! ### Dictionary lemmas -/

lemma dlookup_of_nodup :
    ∀ (l : List (String × String)) (id s : String),
      (l.map Prod.fst).Nodup → (id, s) ∈ l → dlookup l id = some s := by
  intro l
  induction l with
  | nil => intro id s _ hmem; exact absurd hmem (List.not_mem_nil _)
  | cons p l ih =>
      intro id s hnd hmem
      rw [List.map_cons, List.nodup_cons] at hnd
      rcases List.mem_cons.mp hmem with h | h
      · rw [← h]
        show dlookup ((id, s) :: l) id = some s
        simp [dlookup]
      · have hid : id ∈ l.map Prod.fst := by
          exact List.mem_map.mpr ⟨(id, s), h, rfl⟩
        have hne : p.1 ≠ id := fun he => hnd.1 (he ▸ hid)
        show dlookup (p :: l) id = some s
        cases p with
        | mk k v =>
            simp only [dlookup]
            rw [if_neg hne]
            exact ih id s hnd.2 h

lemma dlookup_of_not_mem :
    ∀ (l : List (String × String)) (id : String),
      id ∉ l.map Prod.fst → dlookup l id = none := by
  intro l
  induction l with
  | nil => intro id _; rfl
  | cons p l ih =>
      intro id h
      rw [List.map_cons, List.mem_cons] at h
      push_neg at h
      cases p with
      | mk k v =>
          simp only [dlookup]
          rw [if_neg (fun he => h.1 he.symm)]
          exact ih id h.2

/-! ### Per-connector loop lemmas -/

lemma alert_decision_fst (st : RunState) (old : Option String) (s : String) :
    (alert_decision st old s).1 = true ↔
      (st.is_first_run = true ∨ s = "離線" ∨ (old = some "離線" ∧ s = "上線")) := by
  unfold alert_decision
  split_ifs with h1 h2 h3 <;> simp_all

lemma proc_some (st : RunState) (now id s : String)
    (h1 : is_change_detected st id s) (h2 : is_alert_transition st id s) :
    process_connector st now (id, s) =
      some (log_status_change now id (dlookup st.last_known_status id) s,
        single_alert_message (alert_decision st (dlookup st.last_known_status id) s).2 id
          ((dlookup st.last_known_status id).getD "N/A") s) := by
  simp only [process_connector]
  rw [if_pos h1, if_pos ((alert_decision_fst st (dlookup st.last_known_status id) s).mpr h2)]

lemma proc_none (st : RunState) (now id s : String)
    (h : ¬(is_change_detected st id s ∧ is_alert_transition st id s)) :
    process_connector st now (id, s) = none := by
  simp only [process_connector]
  by_cases h1 : is_change_detected st id s
  · rw [if_pos h1]
    have h2 : ¬ is_alert_transition st id s := fun ha => h ⟨h1, ha⟩
    rw [if_neg (fun hb => h2 ((alert_decision_fst st (dlookup st.last_known_status id) s).mp hb))]
  · rw [if_neg h1]

lemma proc_record (st : RunState) (now : String) (p : String × String)
    (x : TransitionRecord × String) (h : process_connector st now p = some x) :
    x.1 = log_status_change now p.1 (dlookup st.last_known_status p.1) p.2 := by
  simp only [process_connector] at h
  split_ifs at h with h1 h2
  rw [← Option.some.inj h]

lemma filtered_logCalls_not_mem (st : RunState) (now : String) :
    ∀ (l : List (String × String)) (id : String), id ∉ l.map Prod.fst →
      ((l.filterMap (process_connector st now)).map Prod.fst).filter
        (fun r => r.chargerId = id) = [] := by
  intro l
  induction l with
  | nil => intro id _; rfl
  | cons p l ih =>
      intro id h
      rw [List.map_cons, List.mem_cons] at h
      push_neg at h
      cases hp : process_connector st now p with
      | none =>
          rw [List.filterMap_cons_none hp]
          exact ih id h.2
      | some x =>
          rw [List.filterMap_cons_some hp, List.map_cons]
          have hx : x.1.chargerId = p.1 := by rw [proc_record st now p x hp]; rfl
          rw [List.filter_cons_of_neg (by simp [hx, Ne.symm h.1])]
          exact ih id h.2

lemma filtered_logCalls (st : RunState) (now : String) :
    ∀ (l : List (String × String)) (id s : String),
      (l.map Prod.fst).Nodup → (id, s) ∈ l →
      ((l.filterMap (process_connector st now)).map Prod.fst).filter
          (fun r => r.chargerId = id) =
        if is_change_detected st id s ∧ is_alert_transition st id s
        then [log_status_change now id (dlookup st.last_known_status id) s] else [] := by
  intro l
  induction l with
  | nil => intro id s _ hmem; exact absurd hmem (List.not_mem_nil _)
  | cons p l ih =>
      intro id s hnd hmem
      rw [List.map_cons, List.nodup_cons] at hnd
      rcases List.mem_cons.mp hmem with h | h
      · have hp1 : p = (id, s) := h.symm
        subst hp1
        by_cases hca : is_change_detected st id s ∧ is_alert_transition st id s
        · rw [List.filterMap_cons_some (proc_some st now id s hca.1 hca.2), List.map_cons]
          rw [List.filter_cons_of_pos (by simp [log_status_change])]
          rw [filtered_logCalls_not_mem st now l id hnd.1, if_pos hca]
        · rw [List.filterMap_cons_none (proc_none st now id s hca)]
          rw [filtered_logCalls_not_mem st now l id hnd.1, if_neg hca]
      · have hid : id ∈ l.map Prod.fst := List.mem_map.mpr ⟨(id, s), h, rfl⟩
        have hne : p.1 ≠ id := fun he => hnd.1 (he ▸ hid)
        cases hp : process_connector st now p with
        | none =>
            rw [List.filterMap_cons_none hp]
            exact ih id s hnd.2 h
        | some x =>
            rw [List.filterMap_cons_some hp, List.map_cons]
            have hx : x.1.chargerId = p.1 := by rw [proc_record st now p x hp]; rfl
            rw [List.filter_cons_of_neg (by simp [hx, hne])]
            exact ih id s hnd.2 h

/-! ### Tick projection lemmas (non-empty poll) -/

lemma check_state (st : RunState) (cs : List (String × String)) (now time_part : String)
    (appendOk : TransitionRecord → Bool) (deliverOk : Nat → Bool) (h : cs ≠ []) :
    (check_and_report_status st cs now time_part appendOk deliverOk).state =
      { last_known_status := cs, is_first_run := false } := by
  unfold check_and_report_status
  rw [if_neg h]

lemma check_logCalls (st : RunState) (cs : List (String × String)) (now time_part : String)
    (appendOk : TransitionRecord → Bool) (deliverOk : Nat → Bool) (h : cs ≠ []) :
    (check_and_report_status st cs now time_part appendOk deliverOk).logCalls =
      (cs.filterMap (process_connector st now)).map Prod.fst := by
  unfold check_and_report_status
  rw [if_neg h]

lemma check_written (st : RunState) (cs : List (String × String)) (now time_part : String)
    (appendOk : TransitionRecord → Bool) (deliverOk : Nat → Bool) (h : cs ≠ []) :
    (check_and_report_status st cs now time_part appendOk deliverOk).written =
      ((cs.filterMap (process_connector st now)).map Prod.fst).filter appendOk := by
  unfold check_and_report_status
  rw [if_neg h]

lemma check_alerts (st : RunState) (cs : List (String × String)) (now time_part : String)
    (appendOk : TransitionRecord → Bool) (deliverOk : Nat → Bool) (h : cs ≠ []) :
    (check_and_report_status st cs now time_part appendOk deliverOk).alerts_to_send =
      (cs.filterMap (process_connector st now)).map Prod.snd := by
  unfold check_and_report_status
  rw [if_neg h]

lemma check_sent (st : RunState) (cs : List (String × String)) (now time_part : String)
    (appendOk : TransitionRecord → Bool) (deliverOk : Nat → Bool) (h : cs ≠ []) :
    (check_and_report_status st cs now time_part appendOk deliverOk).sentBatches =
      (if (cs.filterMap (process_connector st now)).map Prod.snd = [] then []
       else sendUpTo deliverOk 0 (chunks ((cs.filterMap (process_connector st now)).map Prod.snd))) := by
  unfold check_and_report_status
  rw [if_neg h]

lemma check_calls_length (st : RunState) (cs : List (String × String)) (now time_part : String)
    (appendOk : TransitionRecord → Bool) (deliverOk : Nat → Bool) :
    (check_and_report_status st cs now time_part appendOk deliverOk).notifierCalls.length =
      (check_and_report_status st cs now time_part appendOk deliverOk).sentBatches.length := by
  by_cases h : cs = []
  · subst h; rfl
  · unfold check_and_report_status
    rw [if_neg h]
    simp [List.enum_length]

/-! ### Batching lemmas -/

lemma chunksFuel_nil : ∀ n : Nat, chunksFuel n [] = [] := by
  intro n; cases n <;> rfl

lemma chunksFuel_congr :
    ∀ (n m : Nat) (l : List String), l.length ≤ n → l.length ≤ m →
      chunksFuel n l = chunksFuel m l := by
  intro n
  induction n with
  | zero =>
      intro m l h1 _
      rw [List.eq_nil_of_length_eq_zero (Nat.le_zero.mp h1), chunksFuel_nil, chunksFuel_nil]
  | succ n ih =>
      intro m l h1 h2
      cases l with
      | nil => rw [chunksFuel_nil, chunksFuel_nil]
      | cons x xs =>
          cases m with
          | zero => simp only [List.length_cons] at h2; omega
          | succ m2 =>
              simp only [chunksFuel]
              congr 1
              apply ih
              · rw [List.length_drop]
                simp only [List.length_cons, BATCH_SIZE] at h1 ⊢
                omega
              · rw [List.length_drop]
                simp only [List.length_cons, BATCH_SIZE] at h2 ⊢
                omega

lemma chunks_cons (l : List String) (h : l ≠ []) :
    chunks l = l.take BATCH_SIZE :: chunks (l.drop BATCH_SIZE) := by
  cases l with
  | nil => exact absurd rfl h
  | cons x xs =>
      show chunksFuel (x :: xs).length (x :: xs) = _
      rw [List.length_cons]
      simp only [chunksFuel]
      congr 1
      apply chunksFuel_congr
      · rw [List.length_drop]
        simp only [List.length_cons, BATCH_SIZE]
        omega
      · exact le_refl _

lemma chunks_flatten_aux :
    ∀ (n : Nat) (l : List String), l.length ≤ n → (chunks l).flatten = l := by
  intro n
  induction n with
  | zero =>
      intro l h
      rw [List.eq_nil_of_length_eq_zero (Nat.le_zero.mp h)]
      rfl
  | succ n ih =>
      intro l h
      by_cases hl : l = []
      · subst hl; rfl
      · rw [chunks_cons l hl, List.flatten_cons]
        rw [ih (l.drop BATCH_SIZE) (by
          rw [List.length_drop]
          have := List.length_pos.mpr hl
          simp only [BATCH_SIZE]
          omega)]
        exact List.take_append_drop BATCH_SIZE l

lemma chunks_flatten (l : List String) : (chunks l).flatten = l :=
  chunks_flatten_aux l.length l (le_refl _)

lemma chunks_length_aux :
    ∀ (n : Nat) (l : List String), l.length ≤ n →
      (chunks l).length = (l.length + BATCH_SIZE - 1) / BATCH_SIZE := by
  intro n
  induction n with
  | zero =>
      intro l h
      rw [List.eq_nil_of_length_eq_zero (Nat.le_zero.mp h)]
      rfl
  | succ n ih =>
      intro l h
      by_cases hl : l = []
      · subst hl; rfl
      · rw [chunks_cons l hl, List.length_cons]
        rw [ih (l.drop BATCH_SIZE) (by
          rw [List.length_drop]
          have := List.length_pos.mpr hl
          simp only [BATCH_SIZE]
          omega)]
        rw [List.length_drop]
        have := List.length_pos.mpr hl
        simp only [BATCH_SIZE]
        omega

lemma chunks_length (l : List String) :
    (chunks l).length = (l.length + BATCH_SIZE - 1) / BATCH_SIZE :=
  chunks_length_aux l.length l (le_refl _)

lemma chunks_get_aux :
    ∀ (n : Nat) (l : List String) (i : Nat), l.length ≤ n →
      (chunks l)[i]? =
        if BATCH_SIZE * i < l.length
        then some ((l.drop (BATCH_SIZE * i)).take BATCH_SIZE) else none := by
  intro n
  induction n with
  | zero =>
      intro l i h
      rw [List.eq_nil_of_length_eq_zero (Nat.le_zero.mp h)]
      rw [show chunks ([] : List String) = [] from rfl, List.getElem?_nil,
        if_neg (by simp)]
  | succ n ih =>
      intro l i h
      by_cases hl : l = []
      · subst hl
        rw [show chunks ([] : List String) = [] from rfl, List.getElem?_nil,
          if_neg (by simp)]
      · rw [chunks_cons l hl]
        cases i with
        | zero =>
            rw [List.getElem?_cons_zero, if_pos (by
              have := List.length_pos.mpr hl
              simp only [BATCH_SIZE]
              omega)]
            rw [Nat.mul_zero, List.drop_zero]
        | succ j =>
            rw [List.getElem?_cons_succ]
            rw [ih (l.drop BATCH_SIZE) j (by
              rw [List.length_drop]
              have := List.length_pos.mpr hl
              simp only [BATCH_SIZE]
              omega)]
            rw [List.length_drop, List.drop_drop]
            have harith : BATCH_SIZE + BATCH_SIZE * j = BATCH_SIZE * (j + 1) := by
              simp only [BATCH_SIZE]; omega
            rw [harith]
            by_cases hc : BATCH_SIZE * (j + 1) < l.length
            · rw [if_pos (by simp only [BATCH_SIZE] at hc ⊢; omega), if_pos hc]
            · rw [if_neg (by simp only [BATCH_SIZE] at hc ⊢; omega), if_neg hc]

lemma chunks_get (l : List String) (i : Nat) :
    (chunks l)[i]? =
      if BATCH_SIZE * i < l.length
      then some ((l.drop (BATCH_SIZE * i)).take BATCH_SIZE) else none :=
  chunks_get_aux l.length l i (le_refl _)

lemma sendUpTo_all : ∀ (i : Nat) (bs : List (List String)),
    sendUpTo (fun _ => true) i bs = bs := by
  intro i bs
  induction bs generalizing i with
  | nil => rfl
  | cons b t ih => simp [sendUpTo, ih]

/-- When every delivery succeeds, the batches sent are exactly the
slices. -/
lemma sent_eq_chunks (st : RunState) (cs : List (String × String)) (now time_part : String)
    (appendOk : TransitionRecord → Bool) :
    (check_and_report_status st cs now time_part appendOk (fun _ => true)).sentBatches =
      chunks ((check_and_report_status st cs now time_part appendOk (fun _ => true)).alerts_to_send) := by
  by_cases h : cs = []
  · subst h; rfl
  · rw [check_sent st cs now time_part appendOk (fun _ => true) h,
      check_alerts st cs now time_part appendOk (fun _ => true) h]
    by_cases hA : (cs.filterMap (process_connector st now)).map Prod.snd = []
    · rw [if_pos hA, hA]; rfl
    · rw [if_neg hA, sendUpTo_all]

lemma filterMap_of_all_some {α β : Type} (f : α → Option β) (g : α → β)
    (hf : ∀ a, f a = some (g a)) :
    ∀ l : List α, l.filterMap f = l.map g := by
  intro l
  induction l with
  | nil => rfl
  | cons a t ih => rw [List.filterMap_cons_some (hf a), ih, List.map_cons]

lemma filter_swap {α : Type} (p q : α → Bool) :
    ∀ l : List α, (l.filter p).filter q = (l.filter q).filter p := by
  intro l
  induction l with
  | nil => rfl
  | cons a t ih =>
      by_cases hp : p a <;> by_cases hq : q a <;>
        simp [List.filter_cons, hp, hq, ih]

/-! ### Claim theorems: C1, C2, C3, C4, C7 -/

/-- C1 (counterexample): the claim says every status change yields
exactly one appended TransitionRecord, including changes that are
neither the offline label nor a recovery.  In the program the CSV write
sits inside the alert branch, so the spec's own example — prior
`Charging`, fresh `Preparing`, not the first tick — appends no record at
all (and queues no alert). -/
theorem c1_change_without_record :
    (check_and_report_status ⟨[("A", "Charging")], false⟩ [("A", "Preparing")]
        "2025-01-01 00:00:00" "00:00" (fun _ => true) (fun _ => true)).logCalls = [] ∧
      (check_and_report_status ⟨[("A", "Charging")], false⟩ [("A", "Preparing")]
        "2025-01-01 00:00:00" "00:00" (fun _ => true) (fun _ => true)).alerts_to_send = [] ∧
      dlookup [("A", "Charging")] "A" = some "Charging" ∧
      ("Charging" : String) ≠ "Preparing" := by
  decide

/-- C1 (amended): on a tick with a non-empty fresh poll (with distinct
connector ids), a polled connector gets exactly one appended
TransitionRecord when its status change is detected AND the transition is
alert-worthy (first run, or new status is the offline label, or an
offline-to-online recovery), and no record otherwise — in particular a
change between two statuses that are neither the offline label nor a
recovery is not logged. -/
theorem c1_record_iff_alert_worthy (st : RunState) (poll : List (String × String))
    (now time_part : String) (appendOk : TransitionRecord → Bool) (deliverOk : Nat → Bool)
    (hne : poll ≠ []) (hnd : (poll.map Prod.fst).Nodup) (id s : String)
    (hmem : (id, s) ∈ poll) :
    (check_and_report_status st poll now time_part appendOk deliverOk).logCalls.filter
        (fun r => r.chargerId = id) =
      (if is_change_detected st id s ∧ is_alert_transition st id s
       then [log_status_change now id (dlookup st.last_known_status id) s] else []) := by
  rw [check_logCalls st poll now time_part appendOk deliverOk hne]
  exact filtered_logCalls st now poll id s hnd hmem

/-- Witness for C1: an online-to-offline change is logged exactly once. -/
theorem c1_record_iff_alert_worthy_witness :
    (([("A", "離線")] : List (String × String)) ≠ []) ∧
      ((([("A", "離線")] : List (String × String)).map Prod.fst).Nodup) ∧
      (("A", "離線") ∈ ([("A", "離線")] : List (String × String))) ∧
      (check_and_report_status ⟨[("A", "上線")], false⟩ [("A", "離線")] "T" "tp"
          (fun _ => true) (fun _ => true)).logCalls.filter (fun r => r.chargerId = "A") =
        (if is_change_detected ⟨[("A", "上線")], false⟩ "A" "離線" ∧
            is_alert_transition ⟨[("A", "上線")], false⟩ "A" "離線"
         then [log_status_change "T" "A" (dlookup [("A", "上線")] "A") "離線"] else []) :=
  ⟨by decide, by decide, by decide,
    c1_record_iff_alert_worthy ⟨[("A", "上線")], false⟩ [("A", "離線")] "T" "tp"
      (fun _ => true) (fun _ => true) (by decide) (by decide) "A" "離線" (by decide)⟩

/-- C2 (counterexample): the claim says zero alert notifications are
handed to the Notifier on the very first successful tick; in the program
the first tick builds one `初始狀態` alert per connector and sends it
(one notifier call here), while the log also receives one row. -/
theorem c2_first_tick_sends_alerts :
    (check_and_report_status ⟨[], true⟩ [("A", "上線")] "T" "tp" (fun _ => true)
        (fun _ => true)).notifierCalls.length = 1 ∧
      (check_and_report_status ⟨[], true⟩ [("A", "上線")] "T" "tp" (fun _ => true)
        (fun _ => true)).logCalls.length = 1 := by
  decide

/-- C2 (amended): on the very first successful tick of a fresh process
every polled connector is recorded as a transition from no prior state
(`INITIAL`), and — contrary to the claim — one alert per connector is
queued and the batches ARE handed to the Notifier (at least one call for
a non-empty poll); afterwards `is_first_run` is false. -/
theorem c2_first_tick_logs_and_alerts (poll : List (String × String))
    (now time_part : String) (appendOk : TransitionRecord → Bool) (hne : poll ≠ []) :
    (check_and_report_status ⟨[], true⟩ poll now time_part appendOk (fun _ => true)).logCalls =
        poll.map (fun p => log_status_change now p.1 none p.2) ∧
      (check_and_report_status ⟨[], true⟩ poll now time_part appendOk
          (fun _ => true)).alerts_to_send.length = poll.length ∧
      (check_and_report_status ⟨[], true⟩ poll now time_part appendOk
          (fun _ => true)).sentBatches ≠ [] ∧
      (check_and_report_status ⟨[], true⟩ poll now time_part appendOk
          (fun _ => true)).state.is_first_run = false := by
  have hproc : ∀ p : String × String,
      process_connector ⟨[], true⟩ now p =
        some (log_status_change now p.1 none p.2,
          single_alert_message ("⭐️ 初始狀態 (" ++ p.2 ++ ")") p.1 "N/A" p.2) :=
    fun p => rfl
  have halerts : (check_and_report_status ⟨[], true⟩ poll now time_part appendOk
      (fun _ => true)).alerts_to_send ≠ [] := by
    rw [check_alerts ⟨[], true⟩ poll now time_part appendOk (fun _ => true) hne,
      filterMap_of_all_some _ _ hproc]
    simp [hne]
  refine ⟨?_, ?_, ?_, ?_⟩
  · rw [check_logCalls ⟨[], true⟩ poll now time_part appendOk (fun _ => true) hne,
      filterMap_of_all_some _ _ hproc, List.map_map]
    rfl
  · rw [check_alerts ⟨[], true⟩ poll now time_part appendOk (fun _ => true) hne,
      filterMap_of_all_some _ _ hproc]
    simp
  · rw [sent_eq_chunks, chunks_cons _ halerts]
    exact List.cons_ne_nil _ _
  · rw [check_state ⟨[], true⟩ poll now time_part appendOk (fun _ => true) hne]

/-- Witness for C2: one connector on a fresh first tick. -/
theorem c2_first_tick_logs_and_alerts_witness :
    (([("A", "上線")] : List (String × String)) ≠ []) ∧
      ((check_and_report_status ⟨[], true⟩ [("A", "上線")] "T" "tp" (fun _ => true)
            (fun _ => true)).logCalls =
          ([("A", "上線")] : List (String × String)).map
            (fun p => log_status_change "T" p.1 none p.2) ∧
        (check_and_report_status ⟨[], true⟩ [("A", "上線")] "T" "tp" (fun _ => true)
            (fun _ => true)).alerts_to_send.length =
          ([("A", "上線")] : List (String × String)).length ∧
        (check_and_report_status ⟨[], true⟩ [("A", "上線")] "T" "tp" (fun _ => true)
            (fun _ => true)).sentBatches ≠ [] ∧
        (check_and_report_status ⟨[], true⟩ [("A", "上線")] "T" "tp" (fun _ => true)
            (fun _ => true)).state.is_first_run = false) :=
  ⟨by decide,
    c2_first_tick_logs_and_alerts [("A", "上線")] "T" "tp" (fun _ => true) (by decide)⟩

/-- C3 (counterexample): the claim says a connector absent from the
fresh poll keeps its in-memory entry (stale but not purged); in the
program line 213 replaces the whole map by the fresh poll, so connector
`B` — present in memory, absent from the poll — has no entry after the
tick. -/
theorem c3_absent_connector_purged :
    dlookup (check_and_report_status ⟨[("A", "上線"), ("B", "上線")], false⟩ [("A", "上線")]
        "T" "tp" (fun _ => true) (fun _ => true)).state.last_known_status "B" = none ∧
      dlookup [("A", "上線"), ("B", "上線")] "B" = some "上線" := by
  decide

/-- C3 (amended): after a tick with a non-empty fresh poll the in-memory
map IS the fresh poll (absent connectors are purged, not retained); an
absent connector still generates no transition record, and every queued
alert stems from a polled connector. -/
theorem c3_absent_connector_no_entry_no_record (st : RunState)
    (poll : List (String × String)) (now time_part : String)
    (appendOk : TransitionRecord → Bool) (deliverOk : Nat → Bool) (id : String)
    (hne : poll ≠ []) (hid : id ∉ poll.map Prod.fst) :
    (check_and_report_status st poll now time_part appendOk deliverOk).state.last_known_status =
        poll ∧
      dlookup (check_and_report_status st poll now time_part appendOk
          deliverOk).state.last_known_status id = none ∧
      (check_and_report_status st poll now time_part appendOk deliverOk).logCalls.filter
          (fun r => r.chargerId = id) = [] ∧
      (check_and_report_status st poll now time_part appendOk deliverOk).alerts_to_send =
        poll.filterMap (fun p => (process_connector st now p).map Prod.snd) := by
  refine ⟨?_, ?_, ?_, ?_⟩
  · rw [check_state st poll now time_part appendOk deliverOk hne]
  · rw [check_state st poll now time_part appendOk deliverOk hne]
    exact dlookup_of_not_mem poll id hid
  · rw [check_logCalls st poll now time_part appendOk deliverOk hne]
    exact filtered_logCalls_not_mem st now poll id hid
  · rw [check_alerts st poll now time_part appendOk deliverOk hne]
    exact List.map_filterMap _ _ _

/-- Witness for C3: `B` in memory, only `A` polled. -/
theorem c3_absent_connector_no_entry_no_record_witness :
    (([("A", "上線")] : List (String × String)) ≠ []) ∧
      ("B" ∉ ([("A", "上線")] : List (String × String)).map Prod.fst) ∧
      ((check_and_report_status ⟨[("A", "上線"), ("B", "上線")], false⟩ [("A", "上線")] "T" "tp"
            (fun _ => true) (fun _ => true)).state.last_known_status = [("A", "上線")] ∧
        dlookup (check_and_report_status ⟨[("A", "上線"), ("B", "上線")], false⟩ [("A", "上線")]
            "T" "tp" (fun _ => true) (fun _ => true)).state.last_known_status "B" = none ∧
        (check_and_report_status ⟨[("A", "上線"), ("B", "上線")], false⟩ [("A", "上線")] "T" "tp"
            (fun _ => true) (fun _ => true)).logCalls.filter (fun r => r.chargerId = "B") = [] ∧
        (check_and_report_status ⟨[("A", "上線"), ("B", "上線")], false⟩ [("A", "上線")] "T" "tp"
            (fun _ => true) (fun _ => true)).alerts_to_send =
          ([("A", "上線")] : List (String × String)).filterMap
            (fun p => (process_connector ⟨[("A", "上線"), ("B", "上線")], false⟩ "T" p).map
              Prod.snd)) :=
  ⟨by decide, by decide,
    c3_absent_connector_no_entry_no_record ⟨[("A", "上線"), ("B", "上線")], false⟩
      [("A", "上線")] "T" "tp" (fun _ => true) (fun _ => true) "B" (by decide) (by decide)⟩

/-- C4 (counterexample): the claim says a failed append must leave the
connector's in-memory state unchanged; in the program the append failure
is caught and ignored (lines 137-138) and line 213 still replaces the
map, so with a failing append the row never reaches the log while memory
moves to the new status anyway. -/
theorem c4_memory_updated_despite_failed_append :
    (check_and_report_status ⟨[("B", "上線")], false⟩ [("B", "離線")] "T" "tp"
        (fun _ => false) (fun _ => true)).written = [] ∧
      (check_and_report_status ⟨[("B", "上線")], false⟩ [("B", "離線")] "T" "tp"
        (fun _ => false) (fun _ => true)).logCalls =
        [log_status_change "T" "B" (some "上線") "離線"] ∧
      dlookup (check_and_report_status ⟨[("B", "上線")], false⟩ [("B", "離線")] "T" "tp"
        (fun _ => false) (fun _ => true)).state.last_known_status "B" = some "離線" := by
  decide

/-- C4 (amended): storage failures are swallowed — after any tick with a
non-empty poll the in-memory map equals the fresh poll no matter which
appends succeeded, the physically written rows are exactly the attempted
rows that the storage accepted, and when the appends succeed the written
row of an alert-worthy detected transition matches the in-memory status
for that connector exactly. -/
theorem c4_memory_replaced_log_matches_on_success (st : RunState)
    (poll : List (String × String)) (now time_part : String)
    (appendOk : TransitionRecord → Bool) (deliverOk : Nat → Bool)
    (hne : poll ≠ []) (hnd : (poll.map Prod.fst).Nodup) :
    (check_and_report_status st poll now time_part appendOk deliverOk).state.last_known_status =
        poll ∧
      (check_and_report_status st poll now time_part appendOk deliverOk).written =
        (check_and_report_status st poll now time_part appendOk deliverOk).logCalls.filter
          appendOk ∧
      (∀ id s, (id, s) ∈ poll → is_change_detected st id s → is_alert_transition st id s →
        appendOk (log_status_change now id (dlookup st.last_known_status id) s) = true →
        (check_and_report_status st poll now time_part appendOk deliverOk).written.filter
            (fun r => r.chargerId = id) =
          [log_status_change now id (dlookup st.last_known_status id) s] ∧
        dlookup (check_and_report_status st poll now time_part appendOk
            deliverOk).state.last_known_status id = some s) := by
  refine ⟨?_, ?_, ?_⟩
  · rw [check_state st poll now time_part appendOk deliverOk hne]
  · rw [check_written st poll now time_part appendOk deliverOk hne,
      check_logCalls st poll now time_part appendOk deliverOk hne]
  · intro id s hmem hch hal hok
    constructor
    · rw [check_written st poll now time_part appendOk deliverOk hne, filter_swap,
        filtered_logCalls st now poll id s hnd hmem, if_pos ⟨hch, hal⟩,
        List.filter_cons_of_pos hok]
      rfl
    · rw [check_state st poll now time_part appendOk deliverOk hne]
      exact dlookup_of_nodup poll id s hnd hmem

/-- Witness for C4: online-to-offline transition with all appends
succeeding. -/
theorem c4_memory_replaced_log_matches_on_success_witness :
    (([("B", "離線")] : List (String × String)) ≠ []) ∧
      ((([("B", "離線")] : List (String × String)).map Prod.fst).Nodup) ∧
      ((check_and_report_status ⟨[("B", "上線")], false⟩ [("B", "離線")] "T" "tp"
            (fun _ => true) (fun _ => true)).written.filter (fun r => r.chargerId = "B") =
          [log_status_change "T" "B" (dlookup [("B", "上線")] "B") "離線"] ∧
        dlookup (check_and_report_status ⟨[("B", "上線")], false⟩ [("B", "離線")] "T" "tp"
            (fun _ => true) (fun _ => true)).state.last_known_status "B" = some "離線") :=
  ⟨by decide, by decide,
    (c4_memory_replaced_log_matches_on_success ⟨[("B", "上線")], false⟩ [("B", "離線")]
        "T" "tp" (fun _ => true) (fun _ => true) (by decide) (by decide)).2.2 "B" "離線"
      (by decide) (by decide) (by decide) (by decide)⟩

/-- C7 (confirmed): with batch size 10 and all deliveries succeeding,
the batches handed to the Notifier are exactly the consecutive slices of
the queued alert list — `ceil(n/10)` calls, each slice of size 10 except
the final remainder, order preserved (their concatenation is the alert
list, and the i-th call carries `alerts[10*i : 10*i+10]`); in particular
23 queued alerts produce exactly 3 calls of sizes 10, 10, 3. -/
theorem c7_batching_slices (st : RunState) (poll : List (String × String))
    (now time_part : String) (appendOk : TransitionRecord → Bool) :
    (check_and_report_status st poll now time_part appendOk (fun _ => true)).sentBatches =
        chunks ((check_and_report_status st poll now time_part appendOk
          (fun _ => true)).alerts_to_send) ∧
      (check_and_report_status st poll now time_part appendOk (fun _ => true)).sentBatches.length =
        ((check_and_report_status st poll now time_part appendOk
            (fun _ => true)).alerts_to_send.length + BATCH_SIZE - 1) / BATCH_SIZE ∧
      (check_and_report_status st poll now time_part appendOk
          (fun _ => true)).sentBatches.flatten =
        (check_and_report_status st poll now time_part appendOk (fun _ => true)).alerts_to_send ∧
      (∀ i : Nat,
        ((check_and_report_status st poll now time_part appendOk (fun _ => true)).sentBatches)[i]? =
          if BATCH_SIZE * i <
              (check_and_report_status st poll now time_part appendOk
                (fun _ => true)).alerts_to_send.length
          then some (((check_and_report_status st poll now time_part appendOk
            (fun _ => true)).alerts_to_send.drop (BATCH_SIZE * i)).take BATCH_SIZE)
          else none) ∧
      (check_and_report_status st poll now time_part appendOk
          (fun _ => true)).notifierCalls.length =
        (check_and_report_status st poll now time_part appendOk
          (fun _ => true)).sentBatches.length ∧
      (check_and_report_status ⟨[], false⟩
          ((List.range 23).map (fun n => ("c" ++ toString n, "離線"))) "2025-01-01 12:00:00"
          "12:00" (fun _ => true) (fun _ => true)).sentBatches.map List.length = [10, 10, 3] := by
  refine ⟨sent_eq_chunks st poll now time_part appendOk, ?_, ?_, ?_, ?_, by decide⟩
  · rw [sent_eq_chunks st poll now time_part appendOk, chunks_length]
  · rw [sent_eq_chunks st poll now time_part appendOk, chunks_flatten]
  · intro i
    rw [sent_eq_chunks st poll now time_part appendOk, chunks_get]
  · exact check_calls_length st poll now time_part appendOk (fun _ => true)

end ChargerMonitor
